import Mathlib

/-!
Shallow embedding of the quark-signal library (src/index.js): a synchronous
publish/subscribe `Signal` holding an ordered list of listener records and a
lifetime dispatch counter.  Object identity (JavaScript `===` on functions and
contexts) is modelled by natural-number ids; `undefined` option fields are
modelled by `Option.none`; thrown exceptions by `Except`/an error component.
-/

set_option autoImplicit false

namespace QuarkSignal

/-- JS runtime values that can be returned from a listener callback or passed
as dispatch arguments: `undefined`, `null`, booleans, numbers, strings. -/
inductive JSVal where
  | undef
  | nullV
  | boolV (b : Bool)
  | numV (n : Int)
  | strV (s : String)
deriving DecidableEq

/-- An argument passed where the source expects a callback: either a function
object (identified by its reference id, since JS compares functions with
`===`) or any non-function value (`null`, numbers, ...), which the source
rejects with a `TypeError` via its `typeof cb !== 'function'` checks. -/
inductive JSArg where
  | func (id : Nat)
  | nonFunction (v : JSVal)
deriving DecidableEq

/-- A listener record as built by `add` (src/index.js lines 58-63):
`{ context: this, ...options, function: cb }`.  `priority` and `once` are
`Option`s because with a partial options object the spread leaves them
`undefined` (`none`); `context` and `function` hold object ids. -/
structure Listener where
  context : Nat
  priority : Option Int
  once : Option Bool
  function : Nat
deriving DecidableEq

/-- The options object accepted by `add`/`once`; a `none` field is a field
absent from the object literal. -/
structure Options where
  priority : Option Int := none
  once : Option Bool := none
  context : Option Nat := none
deriving DecidableEq

/-- The state of a `Signal` instance: `_listeners` and `_dispatchNb`
(src/index.js lines 30-42). -/
structure SignalState where
  listeners : List Listener
  dispatchNb : Nat
deriving DecidableEq

/-- A freshly constructed Signal: empty listener list, zero dispatch count. -/
def initialSignal : SignalState := ⟨[], 0⟩

/-- The object id of the Signal instance itself (`this`), used as the default
`context`; distinct contexts supplied by callers are modelled by other ids. -/
def selfContext : Nat := 0

/-- The errors the source throws: the two `TypeError`s for non-function
arguments, `Listener already exists`, `Listener does not exist`,
`Maximum dispatch limit reached`, and the `TypeError` raised when the
dispatch loop reads a property of `undefined` after the array shrank below
the cached loop bound. -/
inductive SignalError where
  | invalidArgument
  | duplicateListener
  | listenerNotFound
  | dispatchLimit
  | undefinedProperty
deriving DecidableEq

/-- Maximum dispatch number, `MAX_DISPATCH_NB` (src/index.js line 6). -/
def MAX_DISPATCH_NB : Nat := 512

/-- Index-tracking loop of `_getListernerIndex` (source name kept, including
its spelling; the leading underscore is dropped for Lean): compares
`function === cb && context === context` at each position. -/
def getListernerIndexAux (cb context : Nat) : Nat → List Listener → Int
  | _, [] => -1
  | i, l :: rest =>
    if l.function = cb ∧ l.context = context then (i : Int)
    else getListernerIndexAux cb context (i + 1) rest

/-- Signal.prototype._getListernerIndex (src/index.js lines 186-194): the
index of the record matching the (callback, context) pair, or -1. -/
def getListernerIndex (listeners : List Listener) (cb context : Nat) : Int :=
  getListernerIndexAux cb context 0 listeners

/-- The listener record built at the top of `add` (src/index.js lines 58-63).
When the `options` argument is omitted the default parameter
`{ priority: 0, once: false, context: this }` supplies all three fields; when
an options object is passed, the spread `{ context: this, ...options }`
defaults only `context`, leaving an omitted `priority` or `once` as
`undefined`. -/
def resolveListener (cb : Nat) (options : Option Options) : Listener :=
  match options with
  | none => { context := selfContext, priority := some 0, once := some false, function := cb }
  | some o => { context := o.context.getD selfContext, priority := o.priority,
                once := o.once, function := cb }

/-- JavaScript `<` on two priority values; comparison with `undefined`
evaluates to `false` (NaN comparison). -/
def jsLtPriority : Option Int → Option Int → Bool
  | some a, some b => decide (a < b)
  | _, _ => false

/-- The sort comparator `(a, b) => a.priority < b.priority` (src/index.js
line 76): the boolean is coerced to a number by ToNumber, so the comparator
returns 1 or 0 and never a negative number. -/
def sortCompare (a b : Listener) : Int :=
  if jsLtPriority a.priority b.priority then 1 else 0

/-- V8 TimSort run detection: the length of the maximal initial run, which is
ascending when `cmp a[1] a[0]` is not negative and is then extended while
`cmp a[i] a[i-1]` stays non-negative. -/
def ascendingRunLength (cmp : Listener → Listener → Int) : List Listener → Nat
  | [] => 0
  | [_] => 1
  | a :: b :: rest =>
    if cmp b a < 0 then 1 else 1 + ascendingRunLength cmp (b :: rest)

/-- Array.prototype.sort with the comparator `sortCompare`, as executed by
V8 (Node 11+, Chrome 70+).  Because `sortCompare` never returns a negative
number (theorem `sortCompare_nonneg`), TimSort run detection classifies the
whole array as a single ascending run (theorem
`ascendingRunLength_sortCompare`) and the sort returns the array unchanged.
ECMA-262 makes the order implementation-defined here because a comparator
returning only 0 and 1 is not a consistent comparator. -/
def jsSortByPriority (listeners : List Listener) : List Listener :=
  listeners

/-- Signal.prototype.add (src/index.js lines 58-79): builds the record,
rejects non-functions, rejects an existing (callback, context) pair, then
pushes and sorts. -/
def add (s : SignalState) (cb : JSArg) (options : Option Options) :
    Except SignalError SignalState :=
  match cb with
  | .nonFunction _ => .error .invalidArgument
  | .func f =>
    let listener := resolveListener f options
    if getListernerIndex s.listeners f listener.context ≠ -1 then
      .error .duplicateListener
    else
      .ok { s with listeners := jsSortByPriority (s.listeners ++ [listener]) }

/-- Signal.prototype.once (src/index.js lines 91-96): delegates to `add`
with `{ ...options, once: true }`, the `options` parameter defaulting to the
empty object. -/
def once (s : SignalState) (cb : JSArg) (options : Option Options) :
    Except SignalError SignalState :=
  add s cb (some { options.getD {} with once := some true })

/-- Core of Signal.prototype.remove (src/index.js lines 109-123) acting on
the listener array: after the `typeof` and not-found checks it executes
`this._listeners.splice(listenerId)` — with no delete count, so it removes
the matched record and every record after it, keeping only the first
`listenerId` records. -/
def removeListeners (listeners : List Listener) (cb : JSArg) (context : Option Nat) :
    Except SignalError (List Listener) :=
  match cb with
  | .nonFunction _ => .error .invalidArgument
  | .func f =>
    let ctx := context.getD selfContext
    let listenerId := getListernerIndex listeners f ctx
    if listenerId = -1 then .error .listenerNotFound
    else .ok (listeners.take listenerId.toNat)

/-- Signal.prototype.remove (src/index.js lines 109-123); the `context`
parameter defaults to `this`. -/
def remove (s : SignalState) (cb : JSArg) (context : Option Nat) :
    Except SignalError SignalState :=
  match removeListeners s.listeners cb context with
  | .ok ls => .ok { s with listeners := ls }
  | .error e => .error e

/-- Signal.prototype.removeAll (src/index.js lines 130-134). -/
def removeAll (s : SignalState) : SignalState :=
  { s with listeners := [] }

/-- Signal.prototype.getListenersNb (src/index.js lines 172-174). -/
def getListenersNb (s : SignalState) : Nat :=
  s.listeners.length

/-- What a listener callback does to its own Signal's listener array when it
is invoked during dispatch: nothing, a reentrant `remove`, or a reentrant
`removeAll`.  This is the mutation surface the spec discusses for reentrancy. -/
inductive ReentrantAction where
  | noop
  | removeAct (cb : JSArg) (context : Option Nat)
  | removeAllAct
deriving DecidableEq

/-- The behaviour attached to a callback function id: the reentrant action it
performs on the Signal when invoked, and its return value as a function of
the dispatch arguments. -/
structure CbBehavior where
  action : ReentrantAction
  ret : List JSVal → JSVal

/-- A callback environment, mapping each function id to its behaviour.
Listener identity never consults this map: `add`, `remove` and the duplicate
check compare only the reference ids. -/
abbrev Env : Type := Nat → CbBehavior

/-- Applies a reentrant action to the Signal's current listener array.  A
reentrant `remove` may itself throw, which propagates out of `dispatch`; a
throwing `remove` has not mutated the array. -/
def applyAction : ReentrantAction → List Listener → Except SignalError (List Listener)
  | .noop, ls => .ok ls
  | .removeAllAct, _ => .ok []
  | .removeAct cb context, ls => removeListeners ls cb context

/-- A completed callback invocation observed during a dispatch: which
function ran, the context it was bound to, and the value it returned. -/
structure Invocation where
  function : Nat
  context : Nat
  ret : JSVal
deriving DecidableEq

/-- JavaScript strict equality against `false` (`propagation === false`,
src/index.js line 159): true only for the boolean `false`, not for
`undefined`, `null`, `0` or any other falsy value. -/
def isStrictFalse : JSVal → Bool
  | .boolV false => true
  | _ => false

/-- Truthiness of the `once` field under `if (listener.once)`
(src/index.js line 153): `undefined` and `false` are falsy. -/
def truthyOnce (o : Option Bool) : Bool :=
  o.getD false

/-- Result of the dispatch loop: the listener array it leaves behind, the
invocations that completed, and the error it threw, if any. -/
structure LoopResult where
  listeners : List Listener
  invoked : List Invocation
  error : Option SignalError
deriving DecidableEq

/-- The for-loop of Signal.prototype.dispatch (src/index.js lines 150-162).
The loop bound `listenersLength` is cached before the first iteration, so it
is modelled as fuel (`fuel = cached length - i`); the body re-reads
`this._listeners[i]` from the current array each iteration.  Reading an index
past the current length yields `undefined`, and the subsequent
`listener.once` access throws a `TypeError` (`undefinedProperty`).  When
`listener.once` is truthy the source executes `this._listeners.splice(i)` —
again with no delete count, truncating the array to its first `i` records —
before invoking the callback.  A return value strictly equal to `false`
breaks out of the loop. -/
def dispatchLoop (env : Env) (args : List JSVal) :
    Nat → Nat → List Listener → LoopResult
  | 0, _, ls => ⟨ls, [], none⟩
  | fuel + 1, i, ls =>
    match ls[i]? with
    | none => ⟨ls, [], some .undefinedProperty⟩
    | some listener =>
      let ls1 := if truthyOnce listener.once then ls.take i else ls
      match applyAction (env listener.function).action ls1 with
      | .error e => ⟨ls1, [], some e⟩
      | .ok ls2 =>
        let r := (env listener.function).ret args
        let inv : Invocation := ⟨listener.function, listener.context, r⟩
        if isStrictFalse r then ⟨ls2, [inv], none⟩
        else
          let rest := dispatchLoop env args fuel (i + 1) ls2
          ⟨rest.listeners, inv :: rest.invoked, rest.error⟩

/-- Result of a dispatch call: the Signal state it leaves behind (mutations
persist even when an exception is thrown), the completed invocations, and
the error thrown, if any. -/
structure DispatchResult where
  state : SignalState
  invoked : List Invocation
  error : Option SignalError
deriving DecidableEq

/-- Signal.prototype.dispatch (src/index.js lines 143-165): increments
`_dispatchNb` first (the increment persists even on the limit error), throws
when the incremented counter exceeds `MAX_DISPATCH_NB`, and otherwise runs
the listener loop with the loop bound cached at entry. -/
def dispatch (env : Env) (s : SignalState) (args : List JSVal) : DispatchResult :=
  let nb := s.dispatchNb + 1
  if nb > MAX_DISPATCH_NB then
    ⟨⟨s.listeners, nb⟩, [], some .dispatchLimit⟩
  else
    let res := dispatchLoop env args s.listeners.length 0 s.listeners
    ⟨⟨res.listeners, nb⟩, res.invoked, res.error⟩

/-- A call to one of the public methods, for reasoning about call sequences. -/
inductive Op where
  | addOp (cb : JSArg) (options : Option Options)
  | onceOp (cb : JSArg) (options : Option Options)
  | removeOp (cb : JSArg) (context : Option Nat)
  | removeAllOp
  | dispatchOp (args : List JSVal)

/-- The Signal state after one public method call; a call that throws leaves
the state it had already produced (for `add`/`once`/`remove` every throw
happens before any mutation, for `dispatch` the counter increment persists). -/
def step (env : Env) (s : SignalState) : Op → SignalState
  | .addOp cb o => match add s cb o with | .ok s1 => s1 | .error _ => s
  | .onceOp cb o => match once s cb o with | .ok s1 => s1 | .error _ => s
  | .removeOp cb c => match remove s cb c with | .ok s1 => s1 | .error _ => s
  | .removeAllOp => removeAll s
  | .dispatchOp args => (dispatch env s args).state

/-- The Signal state after a sequence of public method calls. -/
def execOps (env : Env) (s : SignalState) (ops : List Op) : SignalState :=
  ops.foldl (step env) s

/-- The method names declared on the Signal class, in source order
(src/index.js lines 30-194); this is the class's entire public and private
surface. -/
def signalMethods : List String :=
  ["constructor", "add", "once", "remove", "removeAll", "dispatch",
   "getListenersNb", "_getListernerIndex"]

/-- Specification-side description (spec section 4, dispatch) of which
listeners a dispatch invokes: each listener of the list in order, up to and
including the first whose callback returns exactly the boolean `false`. -/
def specPropagation (env : Env) (args : List JSVal) : List Listener → List Invocation
  | [] => []
  | l :: rest =>
    let r := (env l.function).ret args
    if isStrictFalse r then [⟨l.function, l.context, r⟩]
    else ⟨l.function, l.context, r⟩ :: specPropagation env args rest

/-- An environment in which every callback does nothing and returns
`undefined`. -/
def envUndef : Env := fun _ => ⟨.noop, fun _ => .undef⟩

/-- An environment in which callback 2 returns the boolean `false` and every
other callback returns the number 0 (a falsy value that is not `false`). -/
def c6Env : Env := fun id => ⟨.noop, fun _ => if id = 2 then .boolV false else .numV 0⟩

/-- A Signal holding three plain listeners (callbacks 1, 2 and 3, default
context and options as produced by `add` with no options argument). -/
def c6State : SignalState :=
  ⟨[⟨0, some 0, some false, 1⟩, ⟨0, some 0, some false, 2⟩,
    ⟨0, some 0, some false, 3⟩], 0⟩

/-- An environment in which callback 1 calls `removeAll()` on its own Signal
from inside its invocation and every callback returns `undefined`. -/
def c7Env : Env := fun id =>
  ⟨if id = 1 then .removeAllAct else .noop, fun _ => .undef⟩

/-- The sort comparator coerces a boolean, so it only ever produces 0 or 1,
never a negative number. -/
theorem sortCompare_nonneg (a b : Listener) : 0 ≤ sortCompare a b := by
  unfold sortCompare
  split <;> omega

/-- Because the comparator is never negative, V8 TimSort run detection
classifies any listener array as a single ascending run covering the whole
array; the sort therefore never moves an element, which is what
`jsSortByPriority` records. -/
theorem ascendingRunLength_sortCompare (l : List Listener) :
    ascendingRunLength sortCompare l = l.length := by
  induction l with
  | nil => rfl
  | cons a t ih =>
    cases t with
    | nil => rfl
    | cons b rest =>
      have h := sortCompare_nonneg b a
      unfold ascendingRunLength
      rw [if_neg (by omega), ih]
      simp [List.length_cons]
      omega

/-- Characterization of the lookup loop: it returns -1 from start index `i`
exactly when no record of the list matches the (callback, context) pair. -/
theorem getListernerIndexAux_eq_neg_one (cb context : Nat) :
    ∀ (ls : List Listener) (i : Nat),
      getListernerIndexAux cb context i ls = -1 ↔
        ∀ l ∈ ls, ¬(l.function = cb ∧ l.context = context) := by
  intro ls
  induction ls with
  | nil => intro i; simp [getListernerIndexAux]
  | cons l rest ih =>
    intro i
    by_cases h : l.function = cb ∧ l.context = context
    · rw [getListernerIndexAux, if_pos h]
      constructor
      · intro hi; exact absurd hi (by omega)
      · intro hall; exact absurd h (hall l (List.mem_cons_self l rest))
    · rw [getListernerIndexAux, if_neg h, ih (i + 1)]
      constructor
      · intro hrest l1 hl1
        rcases List.mem_cons.mp hl1 with heq | hmem
        · rw [heq]; exact h
        · exact hrest l1 hmem
      · intro hall l1 hl1; exact hall l1 (List.mem_cons_of_mem _ hl1)

/-- Signal.prototype._getListernerIndex returns -1 exactly when no currently
registered record matches the (callback, context) pair under reference
equality on both components. -/
theorem getListernerIndex_eq_neg_one_iff (ls : List Listener) (cb context : Nat) :
    getListernerIndex ls cb context = -1 ↔
      ∀ l ∈ ls, ¬(l.function = cb ∧ l.context = context) :=
  getListernerIndexAux_eq_neg_one cb context ls 0

/-- C1: the claim says every successful `remove` decreases `getListenersNb()`
by exactly one.  The code instead executes `this._listeners.splice(listenerId)`
with no delete count, removing the matched record and every record after it:
after two successful `add` calls, removing the first listener leaves zero
listeners, not one.  This contradicts the code's own doc comment ("Remove a
listener") — the claim is right and `splice(listenerId)` is a slip for
`splice(listenerId, 1)`. -/
theorem c1_remove_truncates :
    add initialSignal (JSArg.func 1) none
      = Except.ok ⟨[⟨0, some 0, some false, 1⟩], 0⟩
  ∧ add ⟨[⟨0, some 0, some false, 1⟩], 0⟩ (JSArg.func 2) none
      = Except.ok ⟨[⟨0, some 0, some false, 1⟩, ⟨0, some 0, some false, 2⟩], 0⟩
  ∧ remove ⟨[⟨0, some 0, some false, 1⟩, ⟨0, some 0, some false, 2⟩], 0⟩
        (JSArg.func 1) none
      = Except.ok ⟨[], 0⟩
  ∧ getListenersNb ⟨[], 0⟩ = 0 :=
  ⟨rfl, rfl, rfl, rfl⟩

/-- C3: the claim says a once-listener is removed exactly by itself and all
other registered records are still invoked in order.  The code executes
`this._listeners.splice(i)` with no delete count, so a once-listener at
index 0 also removes the listener after it; the loop (whose bound was cached)
then reads `this._listeners[1]`, which is `undefined`, and throws a
`TypeError` on `.once`.  Callback 2 is neither invoked nor still registered. -/
theorem c3_once_truncates_and_crashes :
    once initialSignal (JSArg.func 1) none
      = Except.ok ⟨[⟨0, none, some true, 1⟩], 0⟩
  ∧ add ⟨[⟨0, none, some true, 1⟩], 0⟩ (JSArg.func 2) none
      = Except.ok ⟨[⟨0, none, some true, 1⟩, ⟨0, some 0, some false, 2⟩], 0⟩
  ∧ dispatch envUndef ⟨[⟨0, none, some true, 1⟩, ⟨0, some 0, some false, 2⟩], 0⟩ []
      = ⟨⟨[], 1⟩, [⟨1, 0, JSVal.undef⟩], some SignalError.undefinedProperty⟩ :=
  ⟨rfl, rfl, rfl⟩

/-- C4: the claim says `listeners` is always sorted by non-increasing
priority, so after `add(cb1, {priority: 0})` and `add(cb2, {priority: 1})`
dispatch should invoke cb2 first.  The comparator
`(a, b) => a.priority < b.priority` returns a boolean, which ToNumber coerces
to 0 or 1 and never to a negative number, so on V8 `sort` leaves the array in
insertion order (see `jsSortByPriority`): the lower-priority cb1 is invoked
first, contradicting the code's own doc ("Higher priority listener will be
called earlier"). -/
theorem c4_priority_order_violated :
    add initialSignal (JSArg.func 1) (some ⟨some 0, none, none⟩)
      = Except.ok ⟨[⟨0, some 0, none, 1⟩], 0⟩
  ∧ add ⟨[⟨0, some 0, none, 1⟩], 0⟩ (JSArg.func 2) (some ⟨some 1, none, none⟩)
      = Except.ok ⟨[⟨0, some 0, none, 1⟩, ⟨0, some 1, none, 2⟩], 0⟩
  ∧ (dispatch envUndef ⟨[⟨0, some 0, none, 1⟩, ⟨0, some 1, none, 2⟩], 0⟩ []).invoked
      = [⟨1, 0, JSVal.undef⟩, ⟨2, 0, JSVal.undef⟩]
  ∧ jsLtPriority (some 0) (some 1) = true :=
  ⟨rfl, rfl, rfl, rfl⟩

/-- C7: the claim says calling `remove`/`removeAll` on the Signal from inside
a listener during dispatch never crashes the iteration.  With two listeners,
where the first one calls `removeAll()` from its callback, the loop (bound
cached before the array was cleared) reads `this._listeners[1]`, which is
`undefined`, and throws a `TypeError` on `.once`: dispatch crashes instead of
completing normally. -/
theorem c7_reentrant_removeAll_crashes :
    dispatch c7Env ⟨[⟨0, some 0, some false, 1⟩, ⟨0, some 0, some false, 2⟩], 0⟩ []
      = ⟨⟨[], 1⟩, [⟨1, 0, JSVal.undef⟩], some SignalError.undefinedProperty⟩ :=
  rfl

/-- C9: the claim says an options object with `priority` omitted yields a
record with priority 0 (and omitted `once` yields `false`).  The defaults are
applied only when the `options` argument is omitted entirely; with an options
object present, `{ context: this, ...options }` defaults only `context`, so
`add(cb, {})` creates a record whose `priority` and `once` are `undefined`,
contradicting the code's own JSDoc defaults `[options.priority=0]` and
`[options.once=false]`.  The `context` default to the Signal itself does
hold on both paths. -/
theorem c9_partial_options_priority_undefined :
    add initialSignal (JSArg.func 1) (some {})
      = Except.ok ⟨[⟨selfContext, none, none, 1⟩], 0⟩
  ∧ (⟨selfContext, none, none, 1⟩ : Listener).priority ≠ some 0
  ∧ (⟨selfContext, none, none, 1⟩ : Listener).once ≠ some false
  ∧ add initialSignal (JSArg.func 1) none
      = Except.ok ⟨[⟨selfContext, some 0, some false, 1⟩], 0⟩ :=
  ⟨rfl, by decide, by decide, rfl⟩

/-- C2 (counterexample): the Signal class declares no `has` method, so the
public interface does not include the claimed operation. -/
theorem c2_no_has_method : ¬ ("has" ∈ signalMethods) := by decide

/-- C2 (amended): the registry membership check the class actually provides
is the private `_getListernerIndex`, which returns an index different from -1
exactly when a listener with the given callback and context is currently
registered. -/
theorem c2_membership_via_index (ls : List Listener) (cb context : Nat) :
    getListernerIndex ls cb context ≠ -1 ↔
      ∃ l ∈ ls, l.function = cb ∧ l.context = context := by
  rw [Ne, getListernerIndex_eq_neg_one_iff]
  push_neg
  rfl

/-- Witness for the amended C2 statement at a concrete registry. -/
theorem c2_membership_via_index_witness :
    getListernerIndex [⟨0, some 0, some false, 7⟩] 7 0 ≠ -1 :=
  (c2_membership_via_index [⟨0, some 0, some false, 7⟩] 7 0).mpr
    ⟨⟨0, some 0, some false, 7⟩, by decide, rfl, rfl⟩

/-- The dispatch counter is bumped by exactly one on every dispatch call,
successful or not. -/
theorem dispatch_dispatchNb (env : Env) (s : SignalState) (args : List JSVal) :
    (dispatch env s args).state.dispatchNb = s.dispatchNb + 1 := by
  unfold dispatch
  dsimp only
  split <;> rfl

/-- A dispatch call made with the counter beyond the ceiling throws the limit
error and completes no invocation. -/
theorem dispatch_limit (env : Env) (s : SignalState) (args : List JSVal)
    (h : MAX_DISPATCH_NB < s.dispatchNb) :
    (dispatch env s args).error = some SignalError.dispatchLimit
  ∧ (dispatch env s args).invoked = [] := by
  unfold dispatch
  dsimp only
  rw [if_pos (by omega)]
  exact ⟨rfl, rfl⟩

/-- A successful add leaves the dispatch counter unchanged. -/
theorem add_ok_dispatchNb {s s1 : SignalState} {cb : JSArg} {o : Option Options}
    (h : add s cb o = Except.ok s1) : s1.dispatchNb = s.dispatchNb := by
  unfold add at h
  cases cb with
  | nonFunction v => simp at h
  | func f =>
    dsimp only at h
    split at h
    · simp at h
    · cases h; rfl

/-- A successful remove leaves the dispatch counter unchanged. -/
theorem remove_ok_dispatchNb {s s1 : SignalState} {cb : JSArg} {c : Option Nat}
    (h : remove s cb c = Except.ok s1) : s1.dispatchNb = s.dispatchNb := by
  unfold remove at h
  split at h
  · cases h; rfl
  · simp at h

/-- No public method ever decreases the dispatch counter. -/
theorem step_dispatchNb_le (env : Env) (s : SignalState) (op : Op) :
    s.dispatchNb ≤ (step env s op).dispatchNb := by
  cases op with
  | addOp cb o =>
    unfold step
    cases hadd : add s cb o with
    | ok s1 => simp only [hadd]; exact le_of_eq (add_ok_dispatchNb hadd).symm
    | error e => simp only [hadd]; exact le_rfl
  | onceOp cb o =>
    unfold step
    cases hadd : once s cb o with
    | ok s1 =>
      simp only [hadd]
      exact le_of_eq (add_ok_dispatchNb hadd).symm
    | error e => simp only [hadd]; exact le_rfl
  | removeOp cb c =>
    unfold step
    cases hrem : remove s cb c with
    | ok s1 => simp only [hrem]; exact le_of_eq (remove_ok_dispatchNb hrem).symm
    | error e => simp only [hrem]; exact le_rfl
  | removeAllOp => exact le_rfl
  | dispatchOp args =>
    unfold step
    rw [dispatch_dispatchNb]
    exact Nat.le_succ _

/-- Over any sequence of public method calls the dispatch counter never
decreases (in particular it is never reset). -/
theorem execOps_dispatchNb_le (env : Env) (ops : List Op) :
    ∀ s : SignalState, s.dispatchNb ≤ (execOps env s ops).dispatchNb := by
  induction ops with
  | nil => intro s; exact le_rfl
  | cons op rest ih =>
    intro s
    calc s.dispatchNb ≤ (step env s op).dispatchNb := step_dispatchNb_le env s op
      _ ≤ (execOps env (step env s op) rest).dispatchNb := ih _
      _ = (execOps env s (op :: rest)).dispatchNb := rfl

/-- C5: every dispatch call increments the counter by one (even a failing
one, before any listener is invoked); a dispatch call made when the counter
exceeds the ceiling of 512 throws the limit error and invokes no listener;
and no sequence of public method calls ever decreases the counter, so once
the count has crossed 512 every further dispatch fails. -/
theorem c5_dispatch_counter (env : Env) (s : SignalState) (args : List JSVal)
    (ops : List Op) :
    (dispatch env s args).state.dispatchNb = s.dispatchNb + 1
  ∧ (MAX_DISPATCH_NB < s.dispatchNb →
      (dispatch env s args).error = some SignalError.dispatchLimit
      ∧ (dispatch env s args).invoked = [])
  ∧ s.dispatchNb ≤ (execOps env s ops).dispatchNb :=
  ⟨dispatch_dispatchNb env s args,
   fun h => dispatch_limit env s args h,
   execOps_dispatchNb_le env ops s⟩

/-- Witness for C5: a Signal whose counter stands at 600 has its next
dispatch fail with the limit error, invoking nothing, counter bumped to 601. -/
theorem c5_dispatch_counter_witness :
    (dispatch envUndef ⟨[], 600⟩ []).error = some SignalError.dispatchLimit
  ∧ (dispatch envUndef ⟨[], 600⟩ []).invoked = []
  ∧ (dispatch envUndef ⟨[], 600⟩ []).state.dispatchNb = 601 :=
  ⟨((c5_dispatch_counter envUndef ⟨[], 600⟩ [] []).2.1 (by decide)).1,
   ((c5_dispatch_counter envUndef ⟨[], 600⟩ [] []).2.1 (by decide)).2,
   (c5_dispatch_counter envUndef ⟨[], 600⟩ [] []).1⟩

/-- In any dispatch, only the last completed invocation can have returned the
boolean `false`: a `false` return breaks out of the loop at once, so every
earlier invocation returned something else. -/
theorem dispatchLoop_ret_ne_false (env : Env) (args : List JSVal) :
    ∀ (fuel i : Nat) (ls : List Listener),
      ∀ inv ∈ (dispatchLoop env args fuel i ls).invoked.dropLast,
        isStrictFalse inv.ret = false := by
  intro fuel
  induction fuel with
  | zero => intro i ls inv hinv; simp [dispatchLoop] at hinv
  | succ fuel ih =>
    intro i ls inv hinv
    rw [dispatchLoop] at hinv
    split at hinv
    · simp at hinv
    · dsimp only at hinv
      split at hinv
      · simp at hinv
      · split at hinv
        · simp at hinv
        · rename_i listener hget ls2 hact hr
          cases hrest : (dispatchLoop env args fuel (i + 1) ls2).invoked with
          | nil => rw [hrest] at hinv; simp at hinv
          | cons y t =>
            rw [hrest, List.dropLast_cons₂] at hinv
            rcases List.mem_cons.mp hinv with heq | hmem
            · rw [heq]
              exact Bool.eq_false_iff.mpr hr
            · exact ih (i + 1) ls2 inv (by rw [hrest]; exact hmem)

/-- When no registered listener is a once-listener and no callback mutates
the Signal, the dispatch loop starting at index `i` invokes, in order, the
listeners from `i` on, up to and including the first whose callback returns
exactly `false`, and leaves the array unchanged. -/
theorem dispatchLoop_pure (env : Env) (args : List JSVal) (ls : List Listener)
    (hOnce : ∀ l ∈ ls, truthyOnce l.once = false)
    (hAct : ∀ l ∈ ls, (env l.function).action = ReentrantAction.noop) :
    ∀ (fuel i : Nat), i + fuel = ls.length →
      dispatchLoop env args fuel i ls =
        ⟨ls, specPropagation env args (ls.drop i), none⟩ := by
  intro fuel
  induction fuel with
  | zero =>
    intro i hi
    rw [List.drop_eq_nil_of_le (by omega)]
    rfl
  | succ fuel ih =>
    intro i hi
    have hlt : i < ls.length := by omega
    have hget : ls[i]? = some ls[i] := List.getElem?_eq_getElem hlt
    have hmem : ls[i] ∈ ls := List.getElem_mem hlt
    have hdrop : ls.drop i = ls[i] :: ls.drop (i + 1) :=
      (List.getElem_cons_drop ls i hlt).symm
    rw [dispatchLoop, hget]
    dsimp only
    rw [hOnce _ hmem]
    simp only [Bool.false_eq_true, if_false, hAct _ hmem, applyAction]
    rw [hdrop, specPropagation]
    by_cases hr : isStrictFalse ((env ls[i].function).ret args)
    · rw [if_pos hr, if_pos hr]
    · rw [if_neg hr, if_neg hr, ih (i + 1) (by omega)]

/-- C6: during any dispatch, an invocation that returned exactly the boolean
`false` is the last one — nothing after it runs, while everything the loop
reached before it did run.  And on a Signal below the dispatch ceiling whose
listeners are all plain (no once-flag, no reentrant mutation), the completed
invocations are exactly the listeners in order up to and including the first
returning `false`; any other return value, `undefined` and falsy values
included, lets propagation continue. -/
theorem c6_false_short_circuit :
    (∀ (env : Env) (s : SignalState) (args : List JSVal),
       ∀ inv ∈ (dispatch env s args).invoked.dropLast,
         isStrictFalse inv.ret = false)
  ∧ (∀ (env : Env) (s : SignalState) (args : List JSVal),
       s.dispatchNb < MAX_DISPATCH_NB →
       (∀ l ∈ s.listeners, truthyOnce l.once = false) →
       (∀ l ∈ s.listeners, (env l.function).action = ReentrantAction.noop) →
       (dispatch env s args).invoked = specPropagation env args s.listeners) := by
  constructor
  · intro env s args inv hinv
    unfold dispatch at hinv
    dsimp only at hinv
    split at hinv
    · simp at hinv
    · exact dispatchLoop_ret_ne_false env args s.listeners.length 0 s.listeners inv hinv
  · intro env s args hnb hOnce hAct
    unfold dispatch
    dsimp only
    rw [if_neg (by omega)]
    dsimp only
    rw [dispatchLoop_pure env args s.listeners hOnce hAct s.listeners.length 0
      (by omega), List.drop_zero]

/-- Witness for C6 at a concrete Signal: three plain listeners, the second
returning `false` and the others the falsy number 0; exactly the first two
are invoked, in order. -/
theorem c6_false_short_circuit_witness :
    (dispatch c6Env c6State []).invoked = specPropagation c6Env [] c6State.listeners
  ∧ specPropagation c6Env [] c6State.listeners
      = [⟨1, 0, JSVal.numV 0⟩, ⟨2, 0, JSVal.boolV false⟩] :=
  ⟨c6_false_short_circuit.2 c6Env c6State [] (by decide) (by decide) (by decide),
   by decide⟩

/-- C8: with a record for the (callback, context) pair already present,
`add` — and `once`, which delegates to `add` — throws the duplicate error and
leaves the Signal state, in particular `getListenersNb()`, unchanged. -/
theorem c8_duplicate_add_rejected (env : Env) (s : SignalState) (f : Nat)
    (o : Option Options) :
    (getListernerIndex s.listeners f (resolveListener f o).context ≠ -1 →
       add s (JSArg.func f) o = Except.error SignalError.duplicateListener
     ∧ step env s (Op.addOp (JSArg.func f) o) = s
     ∧ getListenersNb (step env s (Op.addOp (JSArg.func f) o)) = getListenersNb s)
  ∧ (getListernerIndex s.listeners f ((o.getD {}).context.getD selfContext) ≠ -1 →
       once s (JSArg.func f) o = Except.error SignalError.duplicateListener
     ∧ step env s (Op.onceOp (JSArg.func f) o) = s
     ∧ getListenersNb (step env s (Op.onceOp (JSArg.func f) o)) = getListenersNb s) := by
  constructor
  · intro h
    have hadd : add s (JSArg.func f) o = Except.error SignalError.duplicateListener := by
      unfold add
      dsimp only
      rw [if_pos h]
    refine ⟨hadd, ?_, ?_⟩
    · simp only [step, hadd]
    · simp only [step, hadd]
  · intro h
    have honce : once s (JSArg.func f) o = Except.error SignalError.duplicateListener := by
      unfold once add
      dsimp only
      exact if_pos h
    refine ⟨honce, ?_, ?_⟩
    · simp only [step, honce]
    · simp only [step, honce]

/-- Witness for C8: re-adding callback 5 under the default context, by `add`
and by `once`, both fail with the duplicate error and keep the count at 1. -/
theorem c8_duplicate_add_rejected_witness :
    add ⟨[⟨0, some 0, some false, 5⟩], 0⟩ (JSArg.func 5) none
      = Except.error SignalError.duplicateListener
  ∧ once ⟨[⟨0, some 0, some false, 5⟩], 0⟩ (JSArg.func 5) none
      = Except.error SignalError.duplicateListener
  ∧ getListenersNb (step envUndef ⟨[⟨0, some 0, some false, 5⟩], 0⟩
        (Op.addOp (JSArg.func 5) none)) = 1 :=
  ⟨((c8_duplicate_add_rejected envUndef ⟨[⟨0, some 0, some false, 5⟩], 0⟩ 5 none).1
      (by decide)).1,
   ((c8_duplicate_add_rejected envUndef ⟨[⟨0, some 0, some false, 5⟩], 0⟩ 5 none).2
      (by decide)).1,
   by
    rw [((c8_duplicate_add_rejected envUndef ⟨[⟨0, some 0, some false, 5⟩], 0⟩ 5 none).1
      (by decide)).2.1]
    rfl⟩

/-- C10: listener identity is reference equality on the (callback, context)
pair, and never consults behaviour (`add`, `remove` and the duplicate check
take no callback environment at all).  With (f, c1) registered: the same
function f registers under a different context c2 without the duplicate
error; a different function g registers under the same context c1; removing
g under c1 fails with not-found even though the registered f may behave
identically; and re-adding exactly (f, c1) is rejected as a duplicate. -/
theorem c10_reference_identity (s : SignalState) (f g c1 c2 : Nat) (o : Options)
    (hc : c1 ≠ c2) (hf : f ≠ g)
    (h1 : ∃ l ∈ s.listeners, l.function = f ∧ l.context = c1)
    (h2 : ∀ l ∈ s.listeners, ¬(l.function = f ∧ l.context = c2))
    (h3 : ∀ l ∈ s.listeners, ¬(l.function = g ∧ l.context = c1)) :
    add s (JSArg.func f) (some ⟨o.priority, o.once, some c2⟩)
      = Except.ok ⟨jsSortByPriority (s.listeners ++ [⟨c2, o.priority, o.once, f⟩]),
          s.dispatchNb⟩
  ∧ add s (JSArg.func g) (some ⟨o.priority, o.once, some c1⟩)
      = Except.ok ⟨jsSortByPriority (s.listeners ++ [⟨c1, o.priority, o.once, g⟩]),
          s.dispatchNb⟩
  ∧ remove s (JSArg.func g) (some c1) = Except.error SignalError.listenerNotFound
  ∧ add s (JSArg.func f) (some ⟨o.priority, o.once, some c1⟩)
      = Except.error SignalError.duplicateListener := by
  have e2 : getListernerIndex s.listeners f c2 = -1 :=
    (getListernerIndex_eq_neg_one_iff _ _ _).mpr h2
  have e3 : getListernerIndex s.listeners g c1 = -1 :=
    (getListernerIndex_eq_neg_one_iff _ _ _).mpr h3
  have e1 : getListernerIndex s.listeners f c1 ≠ -1 := by
    intro hz
    obtain ⟨l, hl, hfl⟩ := h1
    exact (getListernerIndex_eq_neg_one_iff _ _ _).mp hz l hl hfl
  have hrl : removeListeners s.listeners (JSArg.func g) (some c1)
      = Except.error SignalError.listenerNotFound := by
    unfold removeListeners
    dsimp only
    exact if_pos e3
  refine ⟨?_, ?_, ?_, ?_⟩
  · unfold add
    dsimp only
    exact if_neg (not_not_intro e2)
  · unfold add
    dsimp only
    exact if_neg (not_not_intro e3)
  · unfold remove
    rw [hrl]
  · unfold add
    dsimp only
    exact if_pos e1

/-- Witness for C10: with (callback 1, context 10) registered, callback 1
registers under context 11, callback 2 registers under context 10, removing
callback 2 under context 10 fails with not-found, and re-adding
(callback 1, context 10) is rejected as a duplicate. -/
theorem c10_reference_identity_witness :
    add ⟨[⟨10, some 0, some false, 1⟩], 0⟩ (JSArg.func 1) (some ⟨none, none, some 11⟩)
      = Except.ok ⟨[⟨10, some 0, some false, 1⟩, ⟨11, none, none, 1⟩], 0⟩
  ∧ remove ⟨[⟨10, some 0, some false, 1⟩], 0⟩ (JSArg.func 2) (some 10)
      = Except.error SignalError.listenerNotFound
  ∧ add ⟨[⟨10, some 0, some false, 1⟩], 0⟩ (JSArg.func 1) (some ⟨none, none, some 10⟩)
      = Except.error SignalError.duplicateListener :=
  ⟨(c10_reference_identity ⟨[⟨10, some 0, some false, 1⟩], 0⟩ 1 2 10 11 {}
      (by decide) (by decide) ⟨⟨10, some 0, some false, 1⟩, by decide, rfl, rfl⟩
      (by decide) (by decide)).1,
   (c10_reference_identity ⟨[⟨10, some 0, some false, 1⟩], 0⟩ 1 2 10 11 {}
      (by decide) (by decide) ⟨⟨10, some 0, some false, 1⟩, by decide, rfl, rfl⟩
      (by decide) (by decide)).2.2.1,
   (c10_reference_identity ⟨[⟨10, some 0, some false, 1⟩], 0⟩ 1 2 10 11 {}
      (by decide) (by decide) ⟨⟨10, some 0, some false, 1⟩, by decide, rfl, rfl⟩
      (by decide) (by decide)).2.2.2⟩

end QuarkSignal
